import Mathlib

/-!
Shallow embedding of `Database_query/mongodb_concepts/create_sample_dataset.py`,
the synthetic restaurant-dataset generator, together with proofs of the
structural invariants of the generated collections.

Modelling conventions:
* Python's global `random` module is modelled by an explicit stream of natural
  numbers (`Rng`); each primitive (`randint`, `random.random`, `random.choice`,
  `random.choices`, `random.sample`, `random.uniform`) consumes draws from the
  stream in the same call order as the Python source.  The invariants proved
  below hold for every stream, hence for every seed.
* Python floats holding money are modelled by rationals; `round(x, 2)` is
  modelled by `round2` (round to an integer number of cents).
* `datetime` values are modelled by an integer count of minutes; the current
  wall-clock time `datetime.utcnow()` is an explicit parameter `now` of the
  generator.  `iso` (second-granularity timestamp string) is injective at this
  granularity and is modelled by the minute count itself; date-only strftime
  strings ("%Y-%m-%d") are modelled by the floor day number `dateStr`.
* JSON documents are modelled by records; the key set emitted by `json.dump`
  for an order document is the constant list `orderJsonKeys` (the Python dict
  literal always contains all sixteen keys, `delivery_address` included).
-/

namespace CreateSampleDataset

/-- Model of the global `random` PRNG: an infinite stream of naturals together
with a cursor.  Seeding picks the stream; every primitive below advances the
cursor, mirroring the single shared call sequence of the Python module. -/
structure Rng where
  f : Nat → Nat
  i : Nat
deriving Inhabited

def Rng.next (r : Rng) : Nat × Rng := (r.f r.i, { r with i := r.i + 1 })

/-- Model of `random.seed(seed)`: a concrete stream determined by the seed. -/
def seedRng (seed : Nat) : Rng :=
  { f := fun i => (seed + i + 1) * 2654435761 % 4294967296, i := 0 }

/-- Model of `random.randint(a, b)` (inclusive bounds, `a ≤ b` at all call
sites of the script). -/
def randint (a b : Nat) (r : Rng) : Nat × Rng :=
  let n := r.next
  (a + n.1 % (b + 1 - a), n.2)

/-- Model of `random.random()`: a rational in `[0, 1)`. -/
def randUnit (r : Rng) : ℚ × Rng :=
  let n := r.next
  ((n.1 % 1000 : ℕ) / 1000, n.2)

/-- Model of `random.uniform(a, b)`. -/
def uniform (a b : ℚ) (r : Rng) : ℚ × Rng :=
  let u := randUnit r
  (a + (b - a) * u.1, u.2)

/-- Model of `random.choice(l)`.  Python raises `IndexError` on an empty list;
at every call site of the script the list is provably non-empty, and the
default `d` is returned only in that unreachable case. -/
def choice {α : Type} (l : List α) (d : α) (r : Rng) : α × Rng :=
  let n := r.next
  (l.getD (n.1 % l.length) d, n.2)

/-- Model of `random.choices(l, weights=w, k=1)[0]`: one weighted draw from
`l`.  The weights shape the distribution only; the result is always an element
of `l`, which is all the invariants below depend on. -/
def choicesW {α : Type} (l : List α) (d : α) (r : Rng) : α × Rng :=
  choice l d r

/-- Model of `random.sample(l, k)`: `k` distinct positions, drawn without
replacement (pick an index, remove, recurse). -/
def sample {α : Type} (l : List α) (k : Nat) (r : Rng) : List α × Rng :=
  match k, l with
  | 0, _ => ([], r)
  | _ + 1, [] => ([], r)
  | k + 1, x :: xs =>
      let n := r.next
      let i := n.1 % (x :: xs).length
      let y := (x :: xs).getD i x
      let rest := (x :: xs).eraseIdx i
      let s := sample rest k n.2
      (y :: s.1, s.2)

/-- Model of Python `round(q, 2)`: round to a whole number of cents. -/
def round2 (q : ℚ) : ℚ := (round (100 * q) : ℤ) / 100

/-- A rational that is a whole number of cents (the range of `round2`). -/
def Cent (q : ℚ) : Prop := ∃ k : ℤ, q = k / 100

/-- ASCII model of Python `str.lower()`. -/
def pyLower (s : String) : String := s.map Char.toLower

/-- Model of Python `str.title()` for the single-word category names used by
the script. -/
def pyTitle (s : String) : String := s.capitalize

/-- Zero-padded decimal, model of the `f"{n:0wd}"` format specifier. -/
def pad (w n : Nat) : String :=
  let s := toString n
  String.mk (List.replicate (w - s.length) '0') ++ s

/-- Minutes per day, for the `timedelta(days=…)` arithmetic. -/
def minutesPerDay : ℤ := 1440

/-- Model of a `"%Y-%m-%d"` date-only strftime string: the floor day number. -/
def dateStr (dt : ℤ) : ℤ := Int.fdiv dt minutesPerDay

/-- Model of `iso` (`"%Y-%m-%dT%H:%M:%SZ"`): injective at minute granularity,
represented by the minute count itself. -/
def iso (dt : ℤ) : ℤ := dt

-- ---------------------------------------------------------------------------
-- Constants of the script
-- ---------------------------------------------------------------------------

def RANDOM_SEED : Nat := 8675309
def CUSTOMER_COUNT : Nat := 60
def MENU_ITEM_COUNT : Nat := 24
def ORDER_COUNT : Nat := 480
def USER_COUNT : Nat := 12

def SEGMENTS : List String := ["vip", "premium", "standard", "new"]
def ORDER_TYPES : List String := ["dine_in", "delivery", "takeout"]
def ORDER_STATUSES : List String := ["completed", "pending", "cancelled", "refunded"]
def PAYMENT_METHODS : List String := ["card", "upi", "cash", "wallet"]
def USER_ROLES : List String := ["manager", "chef", "server", "delivery", "cashier"]

def MENU_CATALOG : List (String × List (String × ℚ × ℚ)) :=
  [ ("Starters",
      [ ("Garlic Bread", 6.5, 2.1)
      , ("Bruschetta", 7.2, 2.6)
      , ("Stuffed Mushrooms", 8.0, 3.0)
      , ("Loaded Nachos", 9.5, 3.8) ])
  , ("Mains",
      [ ("Margherita Pizza", 14.0, 5.2)
      , ("BBQ Chicken Pizza", 16.5, 6.1)
      , ("Penne Alfredo", 15.0, 4.9)
      , ("Veggie Burger", 12.5, 4.1)
      , ("Grilled Salmon", 21.0, 9.0)
      , ("Ribeye Steak", 28.0, 12.2) ])
  , ("Desserts",
      [ ("Tiramisu", 7.0, 2.5)
      , ("Cheesecake", 7.5, 2.8)
      , ("Chocolate Lava Cake", 8.5, 3.3) ])
  , ("Beverages",
      [ ("Fresh Lime Soda", 4.5, 1.0)
      , ("Iced Tea", 4.0, 1.2)
      , ("Craft Coffee", 5.5, 1.6)
      , ("Orange Juice", 4.8, 1.3)
      , ("Mocktail", 6.5, 2.0) ]) ]

def FIRST_NAMES : List String :=
  [ "Alex", "Jordan", "Taylor", "Morgan", "Riley", "Casey", "Jamie"
  , "Drew", "Rowan", "Harper", "Avery", "Skyler", "Quinn", "Hayden"
  , "Dakota", "Elliot", "Kennedy", "Sawyer", "Peyton", "Blake" ]

def LAST_NAMES : List String :=
  [ "Smith", "Johnson", "Lee", "Garcia", "Brown", "Martinez", "Davis"
  , "Miller", "Wilson", "Anderson", "Thomas", "Jackson", "White"
  , "Harris", "Clark", "Lewis", "Robinson", "Walker", "Young", "King" ]

def STREETS : List String :=
  [ "Main Street", "Oak Avenue", "Cedar Lane", "Pine Street", "Maple Road"
  , "Elm Street", "Lakeview Drive", "Sunset Boulevard", "Ridgeway Court"
  , "Highland Avenue" ]

def CITIES : List String :=
  [ "Seattle", "Austin", "Denver", "Boston", "San Diego", "Portland"
  , "Nashville", "Chicago", "San Francisco", "Atlanta" ]

def ALLERGEN_POOL : List String := ["gluten", "dairy", "nuts", "soy"]

-- ---------------------------------------------------------------------------
-- Record types of the six collections
-- ---------------------------------------------------------------------------

structure Customer where
  _id : String
  customer_id : String
  name : String
  email : String
  phone : String
  segment : String
  registration_date : ℤ
  total_spent : ℚ
  orders_count : ℕ
  loyalty_points : ℤ
  last_order_date : Option ℤ
deriving Repr, DecidableEq, Inhabited

structure MenuItem where
  _id : String
  item_id : String
  name : String
  category : String
  price : ℚ
  cost : ℚ
  description : String
  availability : Bool
  allergens : List String
  preparation_time : ℕ
deriving Repr, DecidableEq, Inhabited

structure LineItem where
  menu_item_id : String
  name : String
  quantity : ℕ
  unit_price : ℚ
  price : ℚ
  total_price : ℚ
deriving Repr, DecidableEq, Inhabited

structure Order where
  _id : String
  order_id : String
  customer_id : String
  order_date : ℤ
  created_at : ℤ
  order_type : String
  status : String
  order_status : String
  total_amount : ℚ
  subtotal : ℚ
  discount : ℚ
  tax : ℚ
  payment_mode : String
  items : List LineItem
  special_instructions : String
  delivery_address : Option String
deriving Repr, DecidableEq, Inhabited

structure DeliveryDetail where
  _id : String
  order_id : String
  delivery_person : String
  pickup_time : ℤ
  delivery_time : ℤ
  delivery_status : String
  delivery_fee : ℚ
  distance_km : ℚ
  customer_rating : ℕ
deriving Repr, DecidableEq, Inhabited

structure User where
  _id : String
  user_id : String
  name : String
  role : String
  email : String
  hire_date : ℤ
  active : Bool
  permissions : List String
deriving Repr, DecidableEq, Inhabited

structure AuditLog where
  _id : String
  timestamp : ℤ
  user_id : String
  action : String
  resource : String
  resource_id : String
  details : String
deriving Repr, DecidableEq, Inhabited

structure Dataset where
  customers : List Customer
  menu_items : List MenuItem
  orders : List Order
  delivery_details : List DeliveryDetail
  users : List User
  audit_logs : List AuditLog
deriving Repr, DecidableEq, Inhabited

/-- The key set `json.dump` emits for an order document: the dict literal in
`generate_dataset` always carries all sixteen keys, independently of the order
(in particular `delivery_address` is present, with value `null`, for
non-delivery orders). -/
def orderJsonKeys (_o : Order) : List String :=
  [ "_id", "order_id", "customer_id", "order_date", "created_at"
  , "order_type", "status", "order_status", "total_amount", "subtotal"
  , "discount", "tax", "payment_mode", "items", "special_instructions"
  , "delivery_address" ]

-- ---------------------------------------------------------------------------
-- Utility helpers of the script
-- ---------------------------------------------------------------------------

/-- Model of `random_phone`: `f"+1-555-{randint(100,999)}-{randint(1000,9999)}"`. -/
def random_phone (r : Rng) : String × Rng :=
  let a := randint 100 999 r
  let b := randint 1000 9999 a.2
  ("+1-555-" ++ toString a.1 ++ "-" ++ toString b.1, b.2)

/-- Model of `random_email(name)`: lowercased dotted name, a two-digit number and a
random domain. -/
def random_email (name : String) (r : Rng) : String × Rng :=
  let base := (pyLower name).replace " " "."
  let dom := choice ["example.com", "mail.com", "dinetown.io"] "" r
  let n := randint 10 99 dom.2
  (base ++ toString n.1 ++ "@" ++ dom.1, n.2)

/-- Model of `random_address`: street number, street and city. -/
def random_address (r : Rng) : String × Rng :=
  let num := randint 10 999 r
  let street := choice STREETS "" num.2
  let city := choice CITIES "" street.2
  (toString num.1 ++ " " ++ street.1 ++ ", " ++ city.1, city.2)

/-- Model of `random_date(120, 110)`: `utcnow() - 120 days`, plus a random whole-day
and whole-hour offset (`randint(0, 110)` days, `randint(8, 21)` hours). -/
def random_date (now : ℤ) (r : Rng) : ℤ × Rng :=
  let start := now - 120 * minutesPerDay
  let d := randint 0 110 r
  let h := randint 8 21 d.2
  (start + (d.1 : ℤ) * minutesPerDay + (h.1 : ℤ) * 60, h.2)

/-- Model of `make_customer(customer_id)`: draws happen in the Python evaluation order
(first name, last name, segment, registration offset, email domain, email
number, phone part 1, phone part 2). -/
def make_customer (now : ℤ) (customer_id : ℕ) (r : Rng) : Customer × Rng :=
  let fn := choice FIRST_NAMES "" r
  let ln := choice LAST_NAMES "" fn.2
  let full_name := fn.1 ++ " " ++ ln.1
  let seg := choicesW SEGMENTS "" ln.2
  let regd := randint 40 380 seg.2
  let registration := now - (regd.1 : ℤ) * minutesPerDay
  let email := random_email full_name regd.2
  let phone := random_phone email.2
  ( { _id := "cust_" ++ pad 4 customer_id
    , customer_id := "cust_" ++ pad 4 customer_id
    , name := full_name
    , email := email.1
    , phone := phone.1
    , segment := seg.1
    , registration_date := dateStr registration
    , total_spent := 0
    , orders_count := 0
    , loyalty_points := 0
    , last_order_date := none }
  , phone.2 )

/-- Model of `make_menu_item(item_id, name, category, price, cost)`: availability draw,
allergen count and sample, preparation time, in dict-literal order. -/
def make_menu_item (item_id : ℕ) (name category : String) (price cost : ℚ)
    (r : Rng) : MenuItem × Rng :=
  let avail := randUnit r
  let k := randint 0 2 avail.2
  let alrg := sample ALLERGEN_POOL k.1 k.2
  let prep := randint 8 30 alrg.2
  ( { _id := "menu_" ++ pad 3 item_id
    , item_id := "menu_" ++ pad 3 item_id
    , name := name
    , category := pyLower category
    , price := round2 price
    , cost := round2 cost
    , description := "Signature " ++ pyLower name ++ " prepared daily."
    , availability := decide (avail.1 > 0.05)
    , allergens := alrg.1
    , preparation_time := prep.1 }
  , prep.2 )

/-- The first loop of `build_menu_items`: one `MenuItem` per static catalog
entry, ids assigned sequentially starting from `item_id`. -/
def buildCatalogEntries (category : String) :
    List (String × ℚ × ℚ) → ℕ → Rng → List MenuItem × ℕ × Rng
  | [], item_id, r => ([], item_id, r)
  | (name, price, cost) :: es, item_id, r =>
      let it := make_menu_item item_id name category price cost r
      let rest := buildCatalogEntries category es (item_id + 1) it.2
      (it.1 :: rest.1, rest.2)

def buildCatalog :
    List (String × List (String × ℚ × ℚ)) → ℕ → Rng → List MenuItem × ℕ × Rng
  | [], item_id, r => ([], item_id, r)
  | (category, entries) :: cs, item_id, r =>
      let here := buildCatalogEntries category entries item_id r
      let rest := buildCatalog cs here.2.1 here.2.2
      (here.1 ++ rest.1, rest.2)

/-- One iteration of the `while len(items) < MENU_ITEM_COUNT` extension loop:
a variant of a randomly chosen existing item. -/
def makeVariant (items : List MenuItem) (r : Rng) : MenuItem × Rng :=
  let base := choice items default r
  let suf := choice ["Chef Special", "XL", "Seasonal"] "" base.2
  let variant_name := base.1.name ++ " (" ++ suf.1 ++ ")"
  let dp := uniform (-1.5) 2.5 suf.2
  let dc := uniform (-1.0) 1.5 dp.2
  make_menu_item (items.length + 1) variant_name (pyTitle base.1.category)
    (base.1.price + dp.1) (base.1.cost + dc.1) dc.2

/-- The `while len(items) < MENU_ITEM_COUNT` loop of `build_menu_items`,
written with an explicit fuel so it is structurally recursive; every
iteration appends exactly one item, so any `fuel ≥ target - items.length`
produces the loop's exit state (`extendMenu_length_fuel` below). -/
def extendMenu (fuel target : ℕ) (items : List MenuItem) (r : Rng) :
    List MenuItem × Rng :=
  match fuel with
  | 0 => (items, r)
  | fuel + 1 =>
      if items.length < target then
        let v := makeVariant items r
        extendMenu fuel target (items ++ [v.1]) v.2
      else (items, r)

/-- Model of `build_menu_items()`: the static catalog expanded to at least
`menu_item_count` records (the catalog is non-empty, so a fuel of
`menu_item_count` always suffices for the extension loop). -/
def build_menu_items (menu_item_count : ℕ) (r : Rng) : List MenuItem × Rng :=
  let base := buildCatalog MENU_CATALOG 1 r
  extendMenu menu_item_count menu_item_count base.1 base.2.2

/-- The body of the `for item in selection` loop of `choose_items`: one line
item per selected menu item, quantity drawn per item. -/
def buildLineItems : List MenuItem → Rng → List LineItem × Rng
  | [], r => ([], r)
  | item :: rest, r =>
      let q := randint 1 3 r
      let unit_price := item.price
      let total_price := (q.1 : ℚ) * unit_price
      let li : LineItem :=
        { menu_item_id := item.item_id
        , name := item.name
        , quantity := q.1
        , unit_price := unit_price
        , price := unit_price
        , total_price := round2 total_price }
      let tail := buildLineItems rest q.2
      (li :: tail.1, tail.2)

/-- Model of `choose_items(menu)`: 1–4 distinct menu items, each with a 1–3 quantity
and line totals rounded to cents. -/
def choose_items (menu : List MenuItem) (r : Rng) : List LineItem × Rng :=
  let k := randint 1 4 r
  let sel := sample menu k.1 k.2
  buildLineItems sel.1 sel.2

/-- Model of `permissions_map.get(role, ["order_management"])`. -/
def rolePermissions (role : String) : List String :=
  if role = "manager" then ["order_management", "reports", "menu_updates", "staff"]
  else if role = "chef" then ["order_management", "menu_updates"]
  else if role = "server" then ["order_management"]
  else if role = "delivery" then ["deliveries"]
  else if role = "cashier" then ["payments", "order_management"]
  else ["order_management"]

/-- Model of `make_user(user_id)`. -/
def make_user (now : ℤ) (user_id : ℕ) (r : Rng) : User × Rng :=
  let fn := choice FIRST_NAMES "" r
  let ln := choice LAST_NAMES "" fn.2
  let full_name := fn.1 ++ " " ++ ln.1
  let role := choice USER_ROLES "" ln.2
  let hired := randint 120 720 role.2
  let email := random_email full_name hired.2
  let act := randUnit email.2
  ( { _id := "staff_" ++ pad 3 user_id
    , user_id := "staff_" ++ pad 3 user_id
    , name := full_name
    , role := role.1
    , email := email.1
    , hire_date := dateStr (now - (hired.1 : ℤ) * minutesPerDay)
    , active := decide (act.1 > 0.08)
    , permissions := rolePermissions role.1 }
  , act.2 )

/-- Model of `[make_user(i + 1) for i in range(USER_COUNT)]`. -/
def makeUsers (now : ℤ) : ℕ → ℕ → Rng → List User × Rng
  | 0, _, r => ([], r)
  | n + 1, uid, r =>
      let u := make_user now uid r
      let rest := makeUsers now n (uid + 1) u.2
      (u.1 :: rest.1, rest.2)

/-- Model of `[make_customer(i + 1) for i in range(CUSTOMER_COUNT)]`. -/
def makeCustomers (now : ℤ) : ℕ → ℕ → Rng → List Customer × Rng
  | 0, _, r => ([], r)
  | n + 1, cid, r =>
      let c := make_customer now cid r
      let rest := makeCustomers now n (cid + 1) c.2
      (c.1 :: rest.1, rest.2)

-- ---------------------------------------------------------------------------
-- The order loop of `generate_dataset`
-- ---------------------------------------------------------------------------

/-- The per-customer accumulator of `customer_stats` (a `defaultdict`:
missing keys read as the default value). -/
structure CustStats where
  total : ℚ
  count : ℕ
  last : Option ℤ
  points : ℤ
deriving Repr, DecidableEq

def CustStats.dflt : CustStats := { total := 0, count := 0, last := none, points := 0 }

/-- The per-order stats update of the loop body:
`total += total_amount; count += 1; last = max(last, created_at) if last else
created_at; points += int(total_amount // 10)`. -/
def bumpStats (s : CustStats) (total_amount : ℚ) (created_at : ℤ) : CustStats :=
  { total := s.total + total_amount
  , count := s.count + 1
  , last := some (match s.last with
      | none => created_at
      | some l => max l created_at)
  , points := s.points + Int.floor (total_amount / 10) }

/-- The staff-id list of the audit-log draw:
`[f"staff_{i:03d}" for i in range(1, USER_COUNT + 1)]`. -/
def staffIds : List String :=
  (List.range USER_COUNT).map (fun i => "staff_" ++ pad 3 (i + 1))

def SPECIAL_INSTRUCTIONS : List String :=
  ["", "Extra cheese", "No onions", "Gluten-free dough", "Mild spice"]

def AUDIT_ACTIONS : List String :=
  ["order_created", "order_updated", "payment_processed"]

/-- The discount expression of the loop body:
`round(subtotal * random.choice([0, 0.05, 0.1]) if random.random() < 0.35
else 0.0, 2)` (the `random.choice` draw happens only in the first branch). -/
def drawDiscount (subtotal : ℚ) (r : Rng) : ℚ × Rng :=
  let u := randUnit r
  if u.1 < 0.35 then
    let c := choice [(0 : ℚ), 0.05, 0.1] 0 u.2
    (round2 (subtotal * c.1), c.2)
  else (round2 0.0, u.2)

/-- The `delivery_address` expression of the order dict:
`random_address() if order_type == "delivery" else None`. -/
def drawAddress (order_type : String) (r : Rng) : Option String × Rng :=
  if order_type = "delivery" then
    let a := random_address r
    (some a.1, a.2)
  else (none, r)

/-- The delivery branch of the loop body:
`if order_type == "delivery" and status in {"completed", "pending"}`. -/
def makeDelivery (order_id order_type status : String) (created_at : ℤ)
    (r : Rng) : Option DeliveryDetail × Rng :=
  if order_type = "delivery" ∧ (status = "completed" ∨ status = "pending") then
    let m1 := randint 15 25 r
    let pickup_time := created_at + (m1.1 : ℤ)
    let m2 := randint 12 28 m1.2
    let delivery_time := pickup_time + (m2.1 : ℤ)
    let fn := choice FIRST_NAMES "" m2.2
    let ln := choice LAST_NAMES "" fn.2
    let fee := uniform 3.5 6.5 ln.2
    let dist := uniform 1.2 6.8 fee.2
    let rating := randint 3 5 dist.2
    ( some
        { _id := "delivery_" ++ order_id
        , order_id := order_id
        , delivery_person := fn.1 ++ " " ++ ln.1
        , pickup_time := iso pickup_time
        , delivery_time := iso delivery_time
        , delivery_status := if status = "completed" then "delivered" else "in_transit"
        , delivery_fee := round2 fee.1
        , distance_km := round2 dist.1
        , customer_rating := rating.1 }
    , rating.2 )
  else (none, r)

/-- One iteration of the `for order_num in range(ORDER_COUNT)` loop: the
order document, its optional delivery record, its audit-log entry, the
updated stats map and the advanced random stream, with draws in the Python
evaluation order. -/
def orderStep (customers : List Customer) (menu : List MenuItem) (now : ℤ)
    (order_num : ℕ) (stats : String → CustStats) (r : Rng) :
    Order × Option DeliveryDetail × AuditLog × (String → CustStats) × Rng :=
  let order_id := "order_" ++ pad 5 (order_num + 1)
  let customer := choice customers default r
  let items := choose_items menu customer.2
  let subtotal : ℚ := (items.1.map (fun it => it.total_price)).sum
  let disc := drawDiscount subtotal items.2
  let discount := disc.1
  let tax := round2 ((subtotal - discount) * 0.08)
  let total_amount := round2 (subtotal - discount + tax)
  let otype := choicesW ORDER_TYPES "" disc.2
  let stat := choicesW ORDER_STATUSES "" otype.2
  let created := random_date now stat.2
  let pay := choice PAYMENT_METHODS "" created.2
  let spec := choice SPECIAL_INSTRUCTIONS "" pay.2
  let addr := drawAddress otype.1 spec.2
  let order_doc : Order :=
    { _id := order_id
    , order_id := order_id
    , customer_id := customer.1.customer_id
    , order_date := iso created.1
    , created_at := iso created.1
    , order_type := otype.1
    , status := stat.1
    , order_status := stat.1
    , total_amount := total_amount
    , subtotal := round2 subtotal
    , discount := discount
    , tax := tax
    , payment_mode := pay.1
    , items := items.1
    , special_instructions := spec.1
    , delivery_address := addr.1 }
  let stats' : String → CustStats := fun k =>
    if k = customer.1.customer_id then
      bumpStats (stats customer.1.customer_id) total_amount created.1
    else stats k
  let deliv := makeDelivery order_id otype.1 stat.1 created.1 addr.2
  let uid := choice staffIds "" deliv.2
  let act := choice AUDIT_ACTIONS "" uid.2
  let audit : AuditLog :=
    { _id := "audit_" ++ order_id
    , timestamp := iso (created.1 + 5)
    , user_id := uid.1
    , action := act.1
    , resource := "orders"
    , resource_id := order_id
    , details := "Order status set to " ++ stat.1 }
  (order_doc, deliv.1, audit, stats', act.2)

/-- Accumulator of the order loop. -/
structure OrderAcc where
  orders : List Order
  deliveries : List DeliveryDetail
  audits : List AuditLog
  stats : String → CustStats
  rng : Rng

def OrderAcc.init (r : Rng) : OrderAcc :=
  { orders := [], deliveries := [], audits := [], stats := fun _ => CustStats.dflt
  , rng := r }

/-- The full `for order_num in range(ORDER_COUNT)` loop. -/
def genOrders (customers : List Customer) (menu : List MenuItem) (now : ℤ) :
    ℕ → ℕ → OrderAcc → OrderAcc
  | 0, _, acc => acc
  | n + 1, order_num, acc =>
      let s := orderStep customers menu now order_num acc.stats acc.rng
      genOrders customers menu now n (order_num + 1)
        { orders := acc.orders ++ [s.1]
        , deliveries := acc.deliveries ++ s.2.1.toList
        , audits := acc.audits ++ [s.2.2.1]
        , stats := s.2.2.2.1
        , rng := s.2.2.2.2 }

/-- The finalization loop: write the accumulated per-customer stats into the
customer records. -/
def finalizeCustomer (stats : String → CustStats) (c : Customer) : Customer :=
  let s := stats c.customer_id
  { c with
      total_spent := round2 s.total
    , orders_count := s.count
    , loyalty_points := s.points
    , last_order_date := s.last.map dateStr }

/-- Model of `menu_index` membership: does the id resolve in the menu list? -/
def resolves (menu : List MenuItem) (id : String) : Bool :=
  (menu.find? (fun m => m.item_id == id)).isSome

/-- The body of the sanity-check repair pass, for one line item: if the
menu-item reference does not resolve, replace it with a random valid item and
recompute the line total (the `price` field is left untouched). -/
def repairItem (menu : List MenuItem) (it : LineItem) (r : Rng) :
    LineItem × Rng :=
  if resolves menu it.menu_item_id then (it, r)
  else
    let info := choice menu default r
    ( { it with
          menu_item_id := info.1.item_id
        , name := info.1.name
        , unit_price := info.1.price
        , total_price := round2 (info.1.price * (it.quantity : ℚ)) }
    , info.2 )

def repairItems (menu : List MenuItem) : List LineItem → Rng → List LineItem × Rng
  | [], r => ([], r)
  | it :: its, r =>
      let h := repairItem menu it r
      let t := repairItems menu its h.2
      (h.1 :: t.1, t.2)

def repairOrders (menu : List MenuItem) : List Order → Rng → List Order × Rng
  | [], r => ([], r)
  | o :: os, r =>
      let its := repairItems menu o.items r
      let rest := repairOrders menu os its.2
      ({ o with items := its.1 } :: rest.1, rest.2)

/-- Model of `generate_dataset()`.  The configured counts (globals in the script,
rebound by `main`) and the wall-clock reading `utcnow()` are explicit
parameters; the seeded stream is `r`. -/
def generate_dataset (customer_count order_count menu_item_count : ℕ)
    (now : ℤ) (r : Rng) : Dataset :=
  let cs := makeCustomers now customer_count 1 r
  let mi := build_menu_items menu_item_count cs.2
  let menu_items := mi.1
  let loop := genOrders cs.1 menu_items now order_count 0 (OrderAcc.init mi.2)
  let customers := cs.1.map (finalizeCustomer loop.stats)
  let us := makeUsers now USER_COUNT 1 loop.rng
  let rep := repairOrders menu_items loop.orders us.2
  { customers := customers
  , menu_items := menu_items
  , orders := rep.1
  , delivery_details := loop.deliveries
  , users := us.1
  , audit_logs := loop.audits }

/-- Model of `main()`: clamps the parsed counts (`max(1, orders)`, `max(1, customers)`,
`max(8, menu_items)`) and runs the generator; Python exceptions are modelled
by the `Except` error case, and no code path of `main` raises a configuration
error. -/
def main (seed : ℕ) (orders customers menu_items : ℤ) (now : ℤ) :
    Except String Dataset :=
  Except.ok
    (generate_dataset (max 1 customers).toNat (max 1 orders).toNat
      (max 8 menu_items).toNat now (seedRng seed))

-- ---------------------------------------------------------------------------
-- Basic lemmas about the random primitives
-- ---------------------------------------------------------------------------

theorem randint_ge (a b : ℕ) (r : Rng) : a ≤ (randint a b r).1 := by
  simp [randint]

theorem randint_le {a b : ℕ} (h : a ≤ b) (r : Rng) : (randint a b r).1 ≤ b := by
  have hpos : 0 < b + 1 - a := by omega
  have := Nat.mod_lt (r.next.1) hpos
  simp only [randint]
  omega

theorem choice_mem {α : Type} {l : List α} (d : α) (r : Rng) (h : l ≠ []) :
    (choice l d r).1 ∈ l := by
  have hpos : 0 < l.length := List.length_pos.mpr h
  have hlt : r.next.1 % l.length < l.length := Nat.mod_lt _ hpos
  simp only [choice, List.getD_eq_getElem?_getD, List.getElem?_eq_getElem hlt,
    Option.getD_some]
  exact List.getElem_mem hlt

theorem sample_subset {α : Type} :
    ∀ (l : List α) (k : ℕ) (r : Rng), ∀ y ∈ (sample l k r).1, y ∈ l := by
  intro l k
  induction k generalizing l with
  | zero => intro r y hy; simp [sample] at hy
  | succ k ih =>
      intro r y hy
      match l with
      | [] => simp [sample] at hy
      | x :: xs =>
          simp only [sample, List.mem_cons] at hy
          rcases hy with hy | hy
          · subst hy
            have hpos : 0 < (x :: xs).length := by simp
            have hlt : r.next.1 % (x :: xs).length < (x :: xs).length :=
              Nat.mod_lt _ hpos
            simp only [List.getD_eq_getElem?_getD, List.getElem?_eq_getElem hlt,
              Option.getD_some]
            exact List.getElem_mem hlt
          · exact List.eraseIdx_subset _ _ (ih _ _ _ hy)

theorem uniform_ge {a b : ℚ} (h : a ≤ b) (r : Rng) : a ≤ (uniform a b r).1 := by
  have h0 : (0 : ℚ) ≤ (randUnit r).1 := by
    simp only [randUnit]
    positivity
  simp only [uniform]
  nlinarith

theorem uniform_le {a b : ℚ} (h : a ≤ b) (r : Rng) : (uniform a b r).1 ≤ b := by
  have h1 : (randUnit r).1 ≤ 1 := by
    simp only [randUnit]
    rw [div_le_one (by norm_num)]
    have : r.next.1 % 1000 < 1000 := Nat.mod_lt _ (by norm_num)
    exact_mod_cast this.le
  have h0 : (0 : ℚ) ≤ (randUnit r).1 := by
    simp only [randUnit]
    positivity
  simp only [uniform]
  nlinarith

-- ---------------------------------------------------------------------------
-- Lemmas about `round2` and cent-valued rationals
-- ---------------------------------------------------------------------------

theorem cent_round2 (q : ℚ) : Cent (round2 q) := ⟨round (100 * q), rfl⟩

theorem cent_zero : Cent 0 := ⟨0, by norm_num⟩

theorem cent_add {p q : ℚ} (hp : Cent p) (hq : Cent q) : Cent (p + q) := by
  obtain ⟨a, ha⟩ := hp
  obtain ⟨b, hb⟩ := hq
  exact ⟨a + b, by rw [ha, hb]; push_cast; ring⟩

theorem cent_sum {l : List ℚ} (h : ∀ q ∈ l, Cent q) : Cent l.sum := by
  induction l with
  | nil => simpa using cent_zero
  | cons x xs ih =>
      rw [List.sum_cons]
      exact cent_add (h x (by simp)) (ih fun q hq => h q (List.mem_cons_of_mem _ hq))

theorem round2_cent {q : ℚ} (h : Cent q) : round2 q = q := by
  obtain ⟨k, hk⟩ := h
  subst hk
  have h100 : (100 : ℚ) * ((k : ℚ) / 100) = (k : ℚ) := by ring
  rw [round2, h100, round_intCast]

theorem round2_zero : round2 0 = 0 := round2_cent cent_zero

-- ---------------------------------------------------------------------------
-- Line-item specifications
-- ---------------------------------------------------------------------------

/-- What `choose_items` guarantees for each line item it emits. -/
def ItemFrom (menu : List MenuItem) (it : LineItem) : Prop :=
  (∃ m ∈ menu, it.menu_item_id = m.item_id ∧ it.unit_price = m.price ∧
    it.name = m.name)
  ∧ it.price = it.unit_price
  ∧ it.total_price = round2 ((it.quantity : ℚ) * it.unit_price)
  ∧ 1 ≤ it.quantity ∧ it.quantity ≤ 3

theorem buildLineItems_spec :
    ∀ (sel : List MenuItem) (r : Rng), ∀ it ∈ (buildLineItems sel r).1,
      ItemFrom sel it := by
  intro sel
  induction sel with
  | nil => intro r it hit; simp [buildLineItems] at hit
  | cons m rest ih =>
      intro r it hit
      simp only [buildLineItems, List.mem_cons] at hit
      rcases hit with hit | hit
      · subst hit
        refine ⟨⟨m, by simp, rfl, rfl, rfl⟩, rfl, rfl, ?_, ?_⟩
        · exact randint_ge 1 3 r
        · exact randint_le (by norm_num) r
      · obtain ⟨⟨m', hm', h1, h2, h3⟩, h4, h5, h6, h7⟩ := ih _ it hit
        exact ⟨⟨m', List.mem_cons_of_mem _ hm', h1, h2, h3⟩, h4, h5, h6, h7⟩

theorem choose_items_spec (menu : List MenuItem) (r : Rng) :
    ∀ it ∈ (choose_items menu r).1, ItemFrom menu it := by
  intro it hit
  simp only [choose_items] at hit
  obtain ⟨⟨m, hm, h1, h2, h3⟩, h4, h5, h6, h7⟩ := buildLineItems_spec _ _ it hit
  exact ⟨⟨m, sample_subset _ _ _ m hm, h1, h2, h3⟩, h4, h5, h6, h7⟩

-- ---------------------------------------------------------------------------
-- Lemmas about the order-loop branch helpers
-- ---------------------------------------------------------------------------

theorem drawDiscount_cases (subtotal : ℚ) (r : Rng) :
    (drawDiscount subtotal r).1 = 0 ∨
    (drawDiscount subtotal r).1 = round2 (subtotal * 0.05) ∨
    (drawDiscount subtotal r).1 = round2 (subtotal * 0.1) := by
  simp only [drawDiscount]
  split
  · have hmem := choice_mem (l := [(0 : ℚ), 0.05, 0.1]) 0 (randUnit r).2 (by simp)
    simp only [List.mem_cons, List.not_mem_nil, or_false] at hmem
    rcases hmem with h | h | h <;> rw [h]
    · left; rw [mul_zero, round2_zero]
    · right; left; rfl
    · right; right; rfl
  · left
    show round2 0.0 = 0
    have h00 : (0.0 : ℚ) = 0 := by norm_num
    rw [h00, round2_zero]

theorem drawDiscount_cent (subtotal : ℚ) (r : Rng) :
    Cent (drawDiscount subtotal r).1 := by
  simp only [drawDiscount]
  split
  · exact cent_round2 _
  · exact cent_round2 _

theorem drawAddress_isSome_iff (t : String) (r : Rng) :
    (drawAddress t r).1.isSome ↔ t = "delivery" := by
  unfold drawAddress
  split <;> simp_all

theorem makeDelivery_isSome_iff (oid t st : String) (c : ℤ) (r : Rng) :
    (makeDelivery oid t st c r).1.isSome ↔
      (t = "delivery" ∧ (st = "completed" ∨ st = "pending")) := by
  unfold makeDelivery
  split <;> simp_all

theorem makeDelivery_spec (oid t st : String) (c : ℤ) (r : Rng) :
    ∀ d, (makeDelivery oid t st c r).1 = some d →
      d.order_id = oid
      ∧ t = "delivery" ∧ (st = "completed" ∨ st = "pending")
      ∧ c + 15 ≤ d.pickup_time ∧ d.pickup_time ≤ c + 25
      ∧ d.pickup_time + 12 ≤ d.delivery_time ∧ d.delivery_time ≤ d.pickup_time + 28
      ∧ d.delivery_status = (if st = "completed" then "delivered" else "in_transit") := by
  intro d hd
  simp only [makeDelivery] at hd
  split at hd
  · next hcond =>
      simp only [Prod.fst, Option.some.injEq] at hd
      subst hd
      refine ⟨rfl, hcond.1, hcond.2, ?_, ?_, ?_, ?_, rfl⟩
      · have := randint_ge 15 25 r
        simp only [iso]
        omega
      · have := randint_le (a := 15) (b := 25) (by norm_num) r
        simp only [iso]
        omega
      · have := randint_ge 12 28 (randint 15 25 r).2
        simp only [iso]
        omega
      · have := randint_le (a := 12) (b := 28) (by norm_num) (randint 15 25 r).2
        simp only [iso]
        omega
  · exact absurd hd (by simp)

-- ---------------------------------------------------------------------------
-- Per-iteration facts about `orderStep`
-- ---------------------------------------------------------------------------

section OrderStepFacts

variable (cs : List Customer) (menu : List MenuItem) (now : ℤ) (num : ℕ)
variable (st : String → CustStats) (r : Rng)

theorem orderStep_id_eq :
    (orderStep cs menu now num st r).1._id =
      (orderStep cs menu now num st r).1.order_id := rfl

theorem orderStep_order_status :
    (orderStep cs menu now num st r).1.order_status =
      (orderStep cs menu now num st r).1.status := rfl

theorem orderStep_order_date :
    (orderStep cs menu now num st r).1.order_date =
      (orderStep cs menu now num st r).1.created_at := rfl

theorem orderStep_items :
    ∀ it ∈ (orderStep cs menu now num st r).1.items, ItemFrom menu it := by
  intro it hit
  exact choose_items_spec _ _ it hit

theorem orderStep_subtotal :
    (orderStep cs menu now num st r).1.subtotal =
      ((orderStep cs menu now num st r).1.items.map (fun it => it.total_price)).sum := by
  have h0 : (orderStep cs menu now num st r).1.subtotal =
      round2 (((orderStep cs menu now num st r).1.items.map
        (fun it => it.total_price)).sum) := rfl
  rw [h0]
  refine round2_cent (cent_sum ?_)
  intro q hq
  rw [List.mem_map] at hq
  obtain ⟨it, hit, rfl⟩ := hq
  have h := (orderStep_items cs menu now num st r it hit).2.2.1
  rw [h]
  exact cent_round2 _

theorem orderStep_total :
    (orderStep cs menu now num st r).1.total_amount =
      round2 ((orderStep cs menu now num st r).1.subtotal -
        (orderStep cs menu now num st r).1.discount +
        (orderStep cs menu now num st r).1.tax) := by
  rw [orderStep_subtotal]
  rfl

theorem orderStep_tax :
    (orderStep cs menu now num st r).1.tax =
      round2 (((orderStep cs menu now num st r).1.subtotal -
        (orderStep cs menu now num st r).1.discount) * 0.08) := by
  rw [orderStep_subtotal]
  rfl

theorem orderStep_discount_cases :
    (orderStep cs menu now num st r).1.discount = 0 ∨
    (orderStep cs menu now num st r).1.discount =
      round2 ((orderStep cs menu now num st r).1.subtotal * 0.05) ∨
    (orderStep cs menu now num st r).1.discount =
      round2 ((orderStep cs menu now num st r).1.subtotal * 0.1) := by
  rw [orderStep_subtotal]
  exact drawDiscount_cases _ _

theorem orderStep_cent_total :
    Cent (orderStep cs menu now num st r).1.total_amount :=
  cent_round2 _

theorem orderStep_address_iff :
    (orderStep cs menu now num st r).1.delivery_address.isSome ↔
      (orderStep cs menu now num st r).1.order_type = "delivery" :=
  drawAddress_isSome_iff _ _

theorem orderStep_stats :
    (orderStep cs menu now num st r).2.2.2.1 =
      fun k => if k = (orderStep cs menu now num st r).1.customer_id then
        bumpStats (st (orderStep cs menu now num st r).1.customer_id)
          (orderStep cs menu now num st r).1.total_amount
          (orderStep cs menu now num st r).1.created_at
      else st k := rfl

theorem orderStep_deliv_spec :
    ∀ d, (orderStep cs menu now num st r).2.1 = some d →
      d.order_id = (orderStep cs menu now num st r).1.order_id
      ∧ (orderStep cs menu now num st r).1.order_type = "delivery"
      ∧ ((orderStep cs menu now num st r).1.status = "completed" ∨
          (orderStep cs menu now num st r).1.status = "pending")
      ∧ (orderStep cs menu now num st r).1.created_at + 15 ≤ d.pickup_time
      ∧ d.pickup_time ≤ (orderStep cs menu now num st r).1.created_at + 25
      ∧ d.pickup_time + 12 ≤ d.delivery_time
      ∧ d.delivery_time ≤ d.pickup_time + 28
      ∧ d.delivery_status =
          (if (orderStep cs menu now num st r).1.status = "completed"
           then "delivered" else "in_transit") :=
  makeDelivery_spec _ _ _ _ _

theorem orderStep_deliv_isSome :
    ((orderStep cs menu now num st r).1.order_type = "delivery" ∧
      ((orderStep cs menu now num st r).1.status = "completed" ∨
        (orderStep cs menu now num st r).1.status = "pending")) →
    (orderStep cs menu now num st r).2.1.isSome :=
  (makeDelivery_isSome_iff _ _ _ _ _).mpr

theorem orderStep_audit_resource :
    (orderStep cs menu now num st r).2.2.1.resource_id =
      (orderStep cs menu now num st r).1.order_id := rfl

theorem orderStep_audit_user :
    (orderStep cs menu now num st r).2.2.1.user_id ∈ staffIds :=
  choice_mem _ _ (by decide)

end OrderStepFacts

-- ---------------------------------------------------------------------------
-- Loop-level lemmas about `genOrders`
-- ---------------------------------------------------------------------------

/-- The stats map recomputed from a list of orders (the right-hand side of
the aggregate-consistency invariant). -/
def statsFrom (orders : List Order) (k : String) : CustStats :=
  orders.foldl
    (fun s o => if o.customer_id = k then bumpStats s o.total_amount o.created_at else s)
    CustStats.dflt

theorem statsFrom_append (orders : List Order) (o : Order) (k : String) :
    statsFrom (orders ++ [o]) k =
      if o.customer_id = k then
        bumpStats (statsFrom orders k) o.total_amount o.created_at
      else statsFrom orders k := by
  simp [statsFrom, List.foldl_append]

section GenOrdersFacts

variable (cs : List Customer) (menu : List MenuItem) (now : ℤ)

theorem genOrders_orders_forall (P : Order → Prop)
    (hstep : ∀ num stats r, P (orderStep cs menu now num stats r).1) :
    ∀ (n num : ℕ) (acc : OrderAcc), (∀ o ∈ acc.orders, P o) →
      ∀ o ∈ (genOrders cs menu now n num acc).orders, P o := by
  intro n
  induction n with
  | zero => intro num acc hacc o ho; exact hacc o ho
  | succ n ih =>
      intro num acc hacc o ho
      refine ih _ _ ?_ o ho
      intro o' ho'
      rw [List.mem_append] at ho'
      rcases ho' with h | h
      · exact hacc o' h
      · rw [List.mem_singleton] at h
        subst h
        exact hstep _ _ _

theorem genOrders_audits_forall (Q : AuditLog → Prop)
    (hstep : ∀ num stats r, Q (orderStep cs menu now num stats r).2.2.1) :
    ∀ (n num : ℕ) (acc : OrderAcc), (∀ a ∈ acc.audits, Q a) →
      ∀ a ∈ (genOrders cs menu now n num acc).audits, Q a := by
  intro n
  induction n with
  | zero => intro num acc hacc a ha; exact hacc a ha
  | succ n ih =>
      intro num acc hacc a ha
      refine ih _ _ ?_ a ha
      intro a' ha'
      rw [List.mem_append] at ha'
      rcases ha' with h | h
      · exact hacc a' h
      · rw [List.mem_singleton] at h
        subst h
        exact hstep _ _ _

theorem genOrders_orders_length :
    ∀ (n num : ℕ) (acc : OrderAcc),
      (genOrders cs menu now n num acc).orders.length = acc.orders.length + n := by
  intro n
  induction n with
  | zero => intro num acc; rfl
  | succ n ih =>
      intro num acc
      rw [genOrders, ih]
      simp
      omega

theorem genOrders_audit_map :
    ∀ (n num : ℕ) (acc : OrderAcc),
      acc.audits.map (fun a => a.resource_id) = acc.orders.map (fun o => o.order_id) →
      (genOrders cs menu now n num acc).audits.map (fun a => a.resource_id) =
        (genOrders cs menu now n num acc).orders.map (fun o => o.order_id) := by
  intro n
  induction n with
  | zero => intro num acc h; exact h
  | succ n ih =>
      intro num acc h
      refine ih _ _ ?_
      simp only [List.map_append, h, List.map_cons, List.map_nil]
      rw [orderStep_audit_resource]

theorem genOrders_stats :
    ∀ (n num : ℕ) (acc : OrderAcc),
      (∀ k, acc.stats k = statsFrom acc.orders k) →
      ∀ k, (genOrders cs menu now n num acc).stats k =
        statsFrom (genOrders cs menu now n num acc).orders k := by
  intro n
  induction n with
  | zero => intro num acc h; exact h
  | succ n ih =>
      intro num acc h
      refine ih _ _ ?_
      intro k
      rw [orderStep_stats, statsFrom_append]
      dsimp only
      by_cases hk :
          k = (orderStep cs menu now num acc.stats acc.rng).1.customer_id
      · rw [if_pos hk, if_pos hk.symm, h]
        subst hk
        rfl
      · rw [if_neg hk, if_neg (fun hh => hk hh.symm), h]

/-- The delivery–order correspondence carried through the loop. -/
def DelivRel (o : Order) (d : DeliveryDetail) : Prop :=
  d.order_id = o.order_id
  ∧ o.order_type = "delivery"
  ∧ (o.status = "completed" ∨ o.status = "pending")
  ∧ o.created_at + 15 ≤ d.pickup_time
  ∧ d.pickup_time ≤ o.created_at + 25
  ∧ d.pickup_time + 12 ≤ d.delivery_time
  ∧ d.delivery_time ≤ d.pickup_time + 28
  ∧ d.delivery_status =
      (if o.status = "completed" then "delivered" else "in_transit")

/-- An order that must have a delivery record. -/
def DeliveryQualifies (o : Order) : Prop :=
  o.order_type = "delivery" ∧ (o.status = "completed" ∨ o.status = "pending")

theorem genOrders_deliveries :
    ∀ (n num : ℕ) (acc : OrderAcc),
      (∀ d ∈ acc.deliveries, ∃ o ∈ acc.orders, DelivRel o d) →
      (∀ o ∈ acc.orders, DeliveryQualifies o →
        ∃ d ∈ acc.deliveries, d.order_id = o.order_id) →
      (∀ d ∈ (genOrders cs menu now n num acc).deliveries,
        ∃ o ∈ (genOrders cs menu now n num acc).orders, DelivRel o d)
      ∧ (∀ o ∈ (genOrders cs menu now n num acc).orders, DeliveryQualifies o →
        ∃ d ∈ (genOrders cs menu now n num acc).deliveries,
          d.order_id = o.order_id) := by
  intro n
  induction n with
  | zero => intro num acc h1 h2; exact ⟨h1, h2⟩
  | succ n ih =>
      intro num acc h1 h2
      refine ih _ _ ?_ ?_
      · intro d hd
        rw [List.mem_append] at hd
        rcases hd with hd | hd
        · obtain ⟨o, ho, hrel⟩ := h1 d hd
          exact ⟨o, List.mem_append_left _ ho, hrel⟩
        · rw [Option.mem_toList, Option.mem_def] at hd
          obtain ⟨ha, hb, hc, hd', he, hf, hg, hh⟩ :=
            orderStep_deliv_spec cs menu now num acc.stats acc.rng d hd
          exact ⟨_, List.mem_append_right _ (by simp),
            ⟨ha, hb, hc, hd', he, hf, hg, hh⟩⟩
      · intro o ho hq
        rw [List.mem_append] at ho
        rcases ho with ho | ho
        · obtain ⟨d, hd, hid⟩ := h2 o ho hq
          exact ⟨d, List.mem_append_left _ hd, hid⟩
        · rw [List.mem_singleton] at ho
          subst ho
          have hsome := orderStep_deliv_isSome cs menu now num acc.stats acc.rng hq
          rw [Option.isSome_iff_exists] at hsome
          obtain ⟨d, hd⟩ := hsome
          refine ⟨d, List.mem_append_right _ (by simp [hd]), ?_⟩
          exact (orderStep_deliv_spec cs menu now num acc.stats acc.rng d hd).1

end GenOrdersFacts

-- ---------------------------------------------------------------------------
-- `statsFrom` versus filtered order lists
-- ---------------------------------------------------------------------------

theorem foldlStats_count (k : String) :
    ∀ (orders : List Order) (s : CustStats),
      (orders.foldl
        (fun s o => if o.customer_id = k then bumpStats s o.total_amount o.created_at else s)
        s).count
      = s.count + (orders.filter (fun o => o.customer_id == k)).length := by
  intro orders
  induction orders with
  | nil => intro s; simp
  | cons o os ih =>
      intro s
      simp only [List.foldl_cons, List.filter_cons]
      by_cases h : o.customer_id = k
      · rw [if_pos h, ih]
        simp [h, bumpStats]
        omega
      · rw [if_neg h, ih]
        simp [h]

theorem foldlStats_total (k : String) :
    ∀ (orders : List Order) (s : CustStats),
      (orders.foldl
        (fun s o => if o.customer_id = k then bumpStats s o.total_amount o.created_at else s)
        s).total
      = s.total +
        ((orders.filter (fun o => o.customer_id == k)).map
          (fun o => o.total_amount)).sum := by
  intro orders
  induction orders with
  | nil => intro s; simp
  | cons o os ih =>
      intro s
      simp only [List.foldl_cons, List.filter_cons]
      by_cases h : o.customer_id = k
      · rw [if_pos h, ih]
        simp [h, bumpStats]
        ring
      · rw [if_neg h, ih]
        simp [h]

theorem foldlStats_nomatch (k : String) :
    ∀ (orders : List Order) (s : CustStats),
      (∀ o ∈ orders, o.customer_id ≠ k) →
      (orders.foldl
        (fun s o => if o.customer_id = k then bumpStats s o.total_amount o.created_at else s)
        s) = s := by
  intro orders
  induction orders with
  | nil => intro s _; rfl
  | cons o os ih =>
      intro s h
      simp only [List.foldl_cons, if_neg (h o (by simp))]
      exact ih s (fun o' ho' => h o' (List.mem_cons_of_mem _ ho'))

theorem statsFrom_count (orders : List Order) (k : String) :
    (statsFrom orders k).count =
      (orders.filter (fun o => o.customer_id == k)).length := by
  rw [statsFrom, foldlStats_count]
  simp [CustStats.dflt]

theorem statsFrom_total (orders : List Order) (k : String) :
    (statsFrom orders k).total =
      ((orders.filter (fun o => o.customer_id == k)).map
        (fun o => o.total_amount)).sum := by
  rw [statsFrom, foldlStats_total]
  simp [CustStats.dflt]

theorem statsFrom_nomatch (orders : List Order) (k : String)
    (h : ∀ o ∈ orders, o.customer_id ≠ k) :
    statsFrom orders k = CustStats.dflt :=
  foldlStats_nomatch k orders CustStats.dflt h

-- ---------------------------------------------------------------------------
-- The repair pass
-- ---------------------------------------------------------------------------

theorem resolves_of_mem {menu : List MenuItem} {m : MenuItem} (hm : m ∈ menu) :
    resolves menu m.item_id = true := by
  rw [resolves, Option.isSome_iff_exists]
  have : (menu.find? (fun x => x.item_id == m.item_id)).isSome := by
    rw [List.find?_isSome]
    exact ⟨m, hm, by simp⟩
  rwa [Option.isSome_iff_exists] at this

theorem repairItem_resolved {menu : List MenuItem} {it : LineItem} (r : Rng)
    (h : resolves menu it.menu_item_id = true) :
    repairItem menu it r = (it, r) := by
  simp [repairItem, h]

theorem repairItems_resolved {menu : List MenuItem} :
    ∀ (its : List LineItem) (r : Rng),
      (∀ it ∈ its, resolves menu it.menu_item_id = true) →
      repairItems menu its r = (its, r) := by
  intro its
  induction its with
  | nil => intro r _; rfl
  | cons it its ih =>
      intro r h
      simp only [repairItems]
      rw [repairItem_resolved r (h it (by simp)),
        ih r (fun x hx => h x (List.mem_cons_of_mem _ hx))]

theorem repairOrders_resolved {menu : List MenuItem} :
    ∀ (os : List Order) (r : Rng),
      (∀ o ∈ os, ∀ it ∈ o.items, resolves menu it.menu_item_id = true) →
      repairOrders menu os r = (os, r) := by
  intro os
  induction os with
  | nil => intro r _; rfl
  | cons o os ih =>
      intro r h
      simp only [repairOrders]
      rw [repairItems_resolved o.items r (h o (by simp)),
        ih r (fun x hx => h x (List.mem_cons_of_mem _ hx))]

theorem repairItem_resolves {menu : List MenuItem} (hne : menu ≠ [])
    (it : LineItem) (r : Rng) :
    resolves menu (repairItem menu it r).1.menu_item_id = true := by
  rw [repairItem]
  split
  · next h => simpa using h
  · exact resolves_of_mem (choice_mem default r hne)

theorem repairItems_resolve {menu : List MenuItem} (hne : menu ≠ []) :
    ∀ (its : List LineItem) (r : Rng),
      ∀ it ∈ (repairItems menu its r).1, resolves menu it.menu_item_id = true := by
  intro its
  induction its with
  | nil => intro r it hit; simp [repairItems] at hit
  | cons x xs ih =>
      intro r it hit
      simp only [repairItems, List.mem_cons] at hit
      rcases hit with h | h
      · subst h
        exact repairItem_resolves hne x r
      · exact ih _ it h

theorem repairOrders_resolve {menu : List MenuItem} (hne : menu ≠ []) :
    ∀ (os : List Order) (r : Rng),
      ∀ o ∈ (repairOrders menu os r).1, ∀ it ∈ o.items,
        resolves menu it.menu_item_id = true := by
  intro os
  induction os with
  | nil => intro r o ho; simp [repairOrders] at ho
  | cons x xs ih =>
      intro r o ho it hit
      simp only [repairOrders, List.mem_cons] at ho
      rcases ho with h | h
      · subst h
        exact repairItems_resolve hne x.items r it hit
      · exact ih _ o h it hit

-- ---------------------------------------------------------------------------
-- Sizes of the generated collections
-- ---------------------------------------------------------------------------

theorem buildCatalogEntries_length (cat : String) :
    ∀ (es : List (String × ℚ × ℚ)) (id : ℕ) (r : Rng),
      (buildCatalogEntries cat es id r).1.length = es.length := by
  intro es
  induction es with
  | nil => intro id r; rfl
  | cons e es ih =>
      intro id r
      simp only [buildCatalogEntries, List.length_cons]
      rw [ih]

theorem buildCatalog_length :
    ∀ (cs : List (String × List (String × ℚ × ℚ))) (id : ℕ) (r : Rng),
      (buildCatalog cs id r).1.length = (cs.map (fun c => c.2.length)).sum := by
  intro cs
  induction cs with
  | nil => intro id r; rfl
  | cons c cs ih =>
      intro id r
      simp only [buildCatalog, List.length_append, List.map_cons, List.sum_cons]
      rw [buildCatalogEntries_length, ih]

theorem extendMenu_length_fuel :
    ∀ (fuel t : ℕ) (items : List MenuItem) (r : Rng), t - items.length ≤ fuel →
      (extendMenu fuel t items r).1.length = max items.length t := by
  intro fuel
  induction fuel with
  | zero =>
      intro t items r h
      show items.length = max items.length t
      omega
  | succ fuel ih =>
      intro t items r h
      rw [extendMenu]
      split
      · next hlt =>
          rw [ih t _ _ (by simp; omega)]
          simp only [List.length_append, List.length_cons, List.length_nil]
          omega
      · next hge =>
          show items.length = max items.length t
          omega

theorem build_menu_items_length (mc : ℕ) (r : Rng) :
    (build_menu_items mc r).1.length = max 18 mc := by
  have hcat : (buildCatalog MENU_CATALOG 1 r).1.length = 18 := by
    rw [buildCatalog_length]
    rfl
  rw [build_menu_items, extendMenu_length_fuel _ _ _ _ (by omega), hcat]

theorem build_menu_items_ne_nil (mc : ℕ) (r : Rng) :
    (build_menu_items mc r).1 ≠ [] := by
  intro h
  have := build_menu_items_length mc r
  rw [h] at this
  simp at this
  omega

theorem makeUsers_ids (now : ℤ) :
    ∀ (n uid : ℕ) (r : Rng),
      (makeUsers now n uid r).1.map (fun u => u.user_id) =
        (List.range' uid n).map (fun i => "staff_" ++ pad 3 i) := by
  intro n
  induction n with
  | zero => intro uid r; rfl
  | succ n ih =>
      intro uid r
      simp only [makeUsers, List.map_cons, List.range']
      rw [ih]
      rfl

theorem makeUsers_length (now : ℤ) :
    ∀ (n uid : ℕ) (r : Rng), (makeUsers now n uid r).1.length = n := by
  intro n
  induction n with
  | zero => intro uid r; rfl
  | succ n ih =>
      intro uid r
      simp only [makeUsers, List.length_cons]
      rw [ih]

theorem makeCustomers_length (now : ℤ) :
    ∀ (n cid : ℕ) (r : Rng), (makeCustomers now n cid r).1.length = n := by
  intro n
  induction n with
  | zero => intro cid r; rfl
  | succ n ih =>
      intro cid r
      simp only [makeCustomers, List.length_cons]
      rw [ih]

-- ---------------------------------------------------------------------------
-- Characterization of `generate_dataset` (the repair pass is the identity)
-- ---------------------------------------------------------------------------

/-- Proof-side decomposition of `generate_dataset`: the customer list, the
menu list and the state of the order loop, before finalization and repair. -/
def genPhase (cc oc mc : ℕ) (now : ℤ) (r : Rng) :
    List Customer × List MenuItem × OrderAcc :=
  let cs := makeCustomers now cc 1 r
  let mi := build_menu_items mc cs.2
  (cs.1, mi.1, genOrders cs.1 mi.1 now oc 0 (OrderAcc.init mi.2))

theorem genPhase_orders_resolve (cc oc mc : ℕ) (now : ℤ) (r : Rng) :
    ∀ o ∈ (genPhase cc oc mc now r).2.2.orders, ∀ it ∈ o.items,
      resolves (genPhase cc oc mc now r).2.1 it.menu_item_id = true := by
  refine genOrders_orders_forall _ _ _
    (fun o => ∀ it ∈ o.items, resolves (genPhase cc oc mc now r).2.1 it.menu_item_id = true)
    ?_ _ _ _ (by intro o ho; simp [OrderAcc.init] at ho)
  intro num stats r' it hit
  obtain ⟨⟨m, hm, hid, _, _⟩, _⟩ := orderStep_items _ _ now num stats r' it hit
  rw [hid]
  exact resolves_of_mem hm

theorem generate_dataset_orders (cc oc mc : ℕ) (now : ℤ) (r : Rng) :
    (generate_dataset cc oc mc now r).orders = (genPhase cc oc mc now r).2.2.orders := by
  show (repairOrders (genPhase cc oc mc now r).2.1
      (genPhase cc oc mc now r).2.2.orders
      (makeUsers now USER_COUNT 1 (genPhase cc oc mc now r).2.2.rng).2).1
    = (genPhase cc oc mc now r).2.2.orders
  rw [repairOrders_resolved _ _ (genPhase_orders_resolve cc oc mc now r)]

theorem generate_dataset_menu_items (cc oc mc : ℕ) (now : ℤ) (r : Rng) :
    (generate_dataset cc oc mc now r).menu_items = (genPhase cc oc mc now r).2.1 := rfl

theorem generate_dataset_deliveries (cc oc mc : ℕ) (now : ℤ) (r : Rng) :
    (generate_dataset cc oc mc now r).delivery_details =
      (genPhase cc oc mc now r).2.2.deliveries := rfl

theorem generate_dataset_audits (cc oc mc : ℕ) (now : ℤ) (r : Rng) :
    (generate_dataset cc oc mc now r).audit_logs =
      (genPhase cc oc mc now r).2.2.audits := rfl

theorem generate_dataset_customers (cc oc mc : ℕ) (now : ℤ) (r : Rng) :
    (generate_dataset cc oc mc now r).customers =
      (genPhase cc oc mc now r).1.map
        (finalizeCustomer (genPhase cc oc mc now r).2.2.stats) := rfl

theorem generate_dataset_users (cc oc mc : ℕ) (now : ℤ) (r : Rng) :
    (generate_dataset cc oc mc now r).users =
      (makeUsers now USER_COUNT 1 (genPhase cc oc mc now r).2.2.rng).1 := rfl

/-- The accumulated stats of the loop agree with the stats recomputed from
the emitted order list. -/
theorem genPhase_stats (cc oc mc : ℕ) (now : ℤ) (r : Rng) :
    ∀ k, (genPhase cc oc mc now r).2.2.stats k =
      statsFrom (genPhase cc oc mc now r).2.2.orders k := by
  refine genOrders_stats _ _ _ _ _ _ ?_
  intro k
  rfl

-- ---------------------------------------------------------------------------
-- Helper lemmas for concrete instantiations
-- ---------------------------------------------------------------------------

theorem getD_zero_mem {α : Type} {l : List α} (d : α) (h : l ≠ []) :
    l.getD 0 d ∈ l := by
  cases l with
  | nil => exact absurd rfl h
  | cons x xs => simp [List.getD]

theorem genOrders_audits_length (cs : List Customer) (menu : List MenuItem)
    (now : ℤ) :
    ∀ (n num : ℕ) (acc : OrderAcc),
      (genOrders cs menu now n num acc).audits.length = acc.audits.length + n := by
  intro n
  induction n with
  | zero => intro num acc; rfl
  | succ n ih =>
      intro num acc
      rw [genOrders, ih]
      simp
      omega

theorem generate_dataset_orders_length (cc oc mc : ℕ) (now : ℤ) (r : Rng) :
    (generate_dataset cc oc mc now r).orders.length = oc := by
  rw [generate_dataset_orders]
  show (genOrders (makeCustomers now cc 1 r).1
      (build_menu_items mc (makeCustomers now cc 1 r).2).1 now oc 0
      (OrderAcc.init (build_menu_items mc (makeCustomers now cc 1 r).2).2)).orders.length = oc
  rw [genOrders_orders_length]
  simp [OrderAcc.init]

theorem generate_dataset_audits_length (cc oc mc : ℕ) (now : ℤ) (r : Rng) :
    (generate_dataset cc oc mc now r).audit_logs.length = oc := by
  rw [generate_dataset_audits]
  show (genOrders (makeCustomers now cc 1 r).1
      (build_menu_items mc (makeCustomers now cc 1 r).2).1 now oc 0
      (OrderAcc.init (build_menu_items mc (makeCustomers now cc 1 r).2).2)).audits.length = oc
  rw [genOrders_audits_length]
  simp [OrderAcc.init]

theorem generate_dataset_customers_length (cc oc mc : ℕ) (now : ℤ) (r : Rng) :
    (generate_dataset cc oc mc now r).customers.length = cc := by
  rw [generate_dataset_customers, List.length_map]
  show (makeCustomers now cc 1 r).1.length = cc
  exact makeCustomers_length now cc 1 r

theorem generate_dataset_users_length (cc oc mc : ℕ) (now : ℤ) (r : Rng) :
    (generate_dataset cc oc mc now r).users.length = USER_COUNT := by
  rw [generate_dataset_users]
  exact makeUsers_length now USER_COUNT 1 _

theorem generate_dataset_menu_length (cc oc mc : ℕ) (now : ℤ) (r : Rng) :
    (generate_dataset cc oc mc now r).menu_items.length = max 18 mc := by
  rw [generate_dataset_menu_items]
  show (build_menu_items mc (makeCustomers now cc 1 r).2).1.length = max 18 mc
  exact build_menu_items_length mc _

theorem sample_ne_nil {α : Type} {l : List α} {k : ℕ} (r : Rng)
    (hl : l ≠ []) (hk : 1 ≤ k) : (sample l k r).1 ≠ [] := by
  match k, l with
  | 0, _ => omega
  | k + 1, [] => exact absurd rfl hl
  | k + 1, x :: xs => simp [sample]

theorem buildLineItems_ne_nil {sel : List MenuItem} (r : Rng) (h : sel ≠ []) :
    (buildLineItems sel r).1 ≠ [] := by
  cases sel with
  | nil => exact absurd rfl h
  | cons x xs => simp [buildLineItems]

theorem choose_items_ne_nil {menu : List MenuItem} (r : Rng) (h : menu ≠ []) :
    (choose_items menu r).1 ≠ [] := by
  rw [choose_items]
  exact buildLineItems_ne_nil _ (sample_ne_nil _ h (randint_ge 1 4 r))

theorem orderStep_items_ne_nil (cs : List Customer) {menu : List MenuItem}
    (now : ℤ) (num : ℕ) (st : String → CustStats) (r : Rng) (h : menu ≠ []) :
    (orderStep cs menu now num st r).1.items ≠ [] :=
  choose_items_ne_nil _ h

theorem generate_dataset_items_ne_nil (cc oc mc : ℕ) (now : ℤ) (r : Rng) :
    ∀ o ∈ (generate_dataset cc oc mc now r).orders, o.items ≠ [] := by
  rw [generate_dataset_orders]
  refine genOrders_orders_forall _ _ _ (fun o => o.items ≠ []) ?_ oc 0 _
    (by intro o ho; simp [OrderAcc.init] at ho)
  intro num stats r'
  exact orderStep_items_ne_nil _ _ _ _ _
    (build_menu_items_ne_nil mc (makeCustomers now cc 1 r).2)

-- ---------------------------------------------------------------------------
-- Concrete random streams used for witnesses and counterexamples
-- ---------------------------------------------------------------------------

/-- A concrete random stream (all draws read 0), used to instantiate the
universally quantified theorems at a computable input. -/
def zeroStream : Rng := { f := fun _ => 0, i := 0 }

/-- A concrete random stream (all draws read 1); under it the single
generated order has type "delivery" and status "pending". -/
def oneStream : Rng := { f := fun _ => 1, i := 0 }

-- ---------------------------------------------------------------------------
-- Claim theorems
-- ---------------------------------------------------------------------------

/-- C2: for every generated order, `total_amount = round(subtotal - discount
+ tax, 2)`; the stored `subtotal` equals the sum of the line items'
`total_price` (and equals that sum rounded to 2 decimals); every line item's
`total_price` equals `quantity * unit_price` rounded to 2 decimals; `tax` is
8% of the post-discount subtotal rounded to 2 decimals; and `discount` is
either 0 or the subtotal times 5% or 10%, rounded to 2 decimals (the
0.35-probability branch and the uniform choice among the three rates are
draws from the random stream, so the disjunction covers every outcome). -/
theorem c2_order_arithmetic (cc oc mc : ℕ) (now : ℤ) (r : Rng) :
    ∀ o ∈ (generate_dataset cc oc mc now r).orders,
      o.total_amount = round2 (o.subtotal - o.discount + o.tax)
      ∧ o.subtotal = (o.items.map (fun it => it.total_price)).sum
      ∧ o.subtotal = round2 ((o.items.map (fun it => it.total_price)).sum)
      ∧ (∀ it ∈ o.items, it.total_price = round2 ((it.quantity : ℚ) * it.unit_price))
      ∧ o.tax = round2 ((o.subtotal - o.discount) * 0.08)
      ∧ (o.discount = 0 ∨ o.discount = round2 (o.subtotal * 0.05) ∨
          o.discount = round2 (o.subtotal * 0.1)) := by
  rw [generate_dataset_orders]
  refine genOrders_orders_forall _ _ _
    (fun o => o.total_amount = round2 (o.subtotal - o.discount + o.tax)
      ∧ o.subtotal = (o.items.map (fun it => it.total_price)).sum
      ∧ o.subtotal = round2 ((o.items.map (fun it => it.total_price)).sum)
      ∧ (∀ it ∈ o.items, it.total_price = round2 ((it.quantity : ℚ) * it.unit_price))
      ∧ o.tax = round2 ((o.subtotal - o.discount) * 0.08)
      ∧ (o.discount = 0 ∨ o.discount = round2 (o.subtotal * 0.05) ∨
          o.discount = round2 (o.subtotal * 0.1)))
    ?_ oc 0 _ (by intro o ho; simp [OrderAcc.init] at ho)
  intro num stats r'
  have hsub := orderStep_subtotal (makeCustomers now cc 1 r).1
    (build_menu_items mc (makeCustomers now cc 1 r).2).1 now num stats r'
  have hcent : Cent (((orderStep (makeCustomers now cc 1 r).1
      (build_menu_items mc (makeCustomers now cc 1 r).2).1 now num stats r').1.items.map
        (fun it => it.total_price)).sum) := by
    refine cent_sum ?_
    intro q hq
    rw [List.mem_map] at hq
    obtain ⟨it, hit, rfl⟩ := hq
    rw [(orderStep_items _ _ now num stats r' it hit).2.2.1]
    exact cent_round2 _
  refine ⟨orderStep_total _ _ _ _ _ _, hsub, ?_, ?_, orderStep_tax _ _ _ _ _ _,
    orderStep_discount_cases _ _ _ _ _ _⟩
  · rw [hsub, round2_cent hcent]
  · intro it hit
    exact (orderStep_items _ _ now num stats r' it hit).2.2.1

/-- C3: after generation, every customer's `orders_count` is the number of
orders carrying its `customer_id`, `total_spent` is the sum of those orders'
`total_amount` (the stored value is that sum rounded to 2 decimals, and the
sum is an exact whole number of cents, so they coincide), and a customer
with no matching orders keeps `total_spent = 0`, `orders_count = 0` and an
unset (`none`) `last_order_date`. -/
theorem c3_customer_aggregates (cc oc mc : ℕ) (now : ℤ) (r : Rng) :
    ∀ c ∈ (generate_dataset cc oc mc now r).customers,
      c.orders_count = ((generate_dataset cc oc mc now r).orders.filter
        (fun o => o.customer_id == c.customer_id)).length
      ∧ c.total_spent = (((generate_dataset cc oc mc now r).orders.filter
          (fun o => o.customer_id == c.customer_id)).map
            (fun o => o.total_amount)).sum
      ∧ (((generate_dataset cc oc mc now r).orders.filter
          (fun o => o.customer_id == c.customer_id)) = [] →
          c.total_spent = 0 ∧ c.orders_count = 0 ∧ c.last_order_date = none) := by
  have hcentall : ∀ o ∈ (genPhase cc oc mc now r).2.2.orders, Cent o.total_amount := by
    refine genOrders_orders_forall _ _ _ (fun o => Cent o.total_amount)
      ?_ oc 0 _ (by intro o ho; simp [OrderAcc.init] at ho)
    intro num stats r'
    exact orderStep_cent_total _ _ _ _ _ _
  intro c hc
  rw [generate_dataset_customers, List.mem_map] at hc
  obtain ⟨c0, hc0, rfl⟩ := hc
  rw [generate_dataset_orders]
  have hid : (finalizeCustomer (genPhase cc oc mc now r).2.2.stats c0).customer_id
      = c0.customer_id := rfl
  rw [hid]
  refine ⟨?_, ?_, ?_⟩
  · show ((genPhase cc oc mc now r).2.2.stats c0.customer_id).count = _
    rw [genPhase_stats, statsFrom_count]
  · show round2 ((genPhase cc oc mc now r).2.2.stats c0.customer_id).total = _
    rw [genPhase_stats, statsFrom_total]
    refine round2_cent (cent_sum ?_)
    intro q hq
    rw [List.mem_map] at hq
    obtain ⟨o, ho, rfl⟩ := hq
    exact hcentall o (List.mem_of_mem_filter ho)
  · intro hnil
    have hnom : ∀ o ∈ (genPhase cc oc mc now r).2.2.orders,
        o.customer_id ≠ c0.customer_id := by
      intro o ho heq
      have hmem : o ∈ (genPhase cc oc mc now r).2.2.orders.filter
          (fun o => o.customer_id == c0.customer_id) :=
        List.mem_filter.mpr ⟨ho, by simp [heq]⟩
      rw [hnil] at hmem
      simp at hmem
    refine ⟨?_, ?_, ?_⟩
    · show round2 ((genPhase cc oc mc now r).2.2.stats c0.customer_id).total = 0
      rw [genPhase_stats, statsFrom_nomatch _ _ hnom]
      show round2 0 = 0
      exact round2_zero
    · show ((genPhase cc oc mc now r).2.2.stats c0.customer_id).count = 0
      rw [genPhase_stats, statsFrom_nomatch _ _ hnom]
      rfl
    · show ((genPhase cc oc mc now r).2.2.stats c0.customer_id).last.map dateStr = none
      rw [genPhase_stats, statsFrom_nomatch _ _ hnom]
      rfl

/-- C4: a delivery record exists for an order exactly when the order has
type "delivery" and status "completed" or "pending"; each record's
`pickup_time` is the order's creation time plus 15–25 minutes, its
`delivery_time` is the pickup time plus 12–28 minutes (both therefore
strictly later), and `delivery_status` is "delivered" for completed orders
and "in_transit" otherwise (all captured by `DelivRel`). -/
theorem c4_delivery_subset (cc oc mc : ℕ) (now : ℤ) (r : Rng) :
    (∀ dd ∈ (generate_dataset cc oc mc now r).delivery_details,
        ∃ o ∈ (generate_dataset cc oc mc now r).orders, DelivRel o dd)
    ∧ (∀ o ∈ (generate_dataset cc oc mc now r).orders, DeliveryQualifies o →
        ∃ dd ∈ (generate_dataset cc oc mc now r).delivery_details,
          dd.order_id = o.order_id) := by
  rw [generate_dataset_deliveries, generate_dataset_orders]
  exact genOrders_deliveries _ _ _ oc 0 _
    (by intro d hd; simp [OrderAcc.init] at hd)
    (by intro o ho; simp [OrderAcc.init] at ho)

/-- C5: every line item of every generated order resolves in the menu_items
collection; the repair pass maps any order list to a referentially
consistent one whenever the menu is non-empty (and never fails — it is a
total function); and a line item that does not resolve is replaced by a
valid menu item with its line total recomputed from that item's price. -/
theorem c5_referential_integrity (cc oc mc : ℕ) (now : ℤ) (r : Rng) :
    (∀ o ∈ (generate_dataset cc oc mc now r).orders, ∀ it ∈ o.items,
        resolves (generate_dataset cc oc mc now r).menu_items it.menu_item_id = true)
    ∧ (∀ (menu : List MenuItem) (os : List Order) (r' : Rng), menu ≠ [] →
        ∀ o ∈ (repairOrders menu os r').1, ∀ it ∈ o.items,
          resolves menu it.menu_item_id = true)
    ∧ (∀ (menu : List MenuItem) (it : LineItem) (r' : Rng),
        resolves menu it.menu_item_id = false → menu ≠ [] →
        ∃ m ∈ menu, (repairItem menu it r').1.menu_item_id = m.item_id
          ∧ (repairItem menu it r').1.unit_price = m.price
          ∧ (repairItem menu it r').1.total_price =
              round2 (m.price * (((repairItem menu it r').1.quantity : ℕ) : ℚ))) := by
  refine ⟨?_, ?_, ?_⟩
  · rw [generate_dataset_orders, generate_dataset_menu_items]
    exact genPhase_orders_resolve cc oc mc now r
  · intro menu os r' hne
    exact repairOrders_resolve hne os r'
  · intro menu it r' hf hne
    refine ⟨(choice menu default r').1, choice_mem default r' hne, ?_, ?_, ?_⟩
    all_goals simp [repairItem, hf]

/-- C7 (amended): for every generated order, `delivery_address` is non-null
exactly when the order type is "delivery"; the key itself is always present
in the emitted JSON document (with value null for non-delivery orders), not
absent. -/
theorem c7_delivery_address_amended (cc oc mc : ℕ) (now : ℤ) (r : Rng) :
    ∀ o ∈ (generate_dataset cc oc mc now r).orders,
      (o.delivery_address.isSome ↔ o.order_type = "delivery")
      ∧ "delivery_address" ∈ orderJsonKeys o := by
  rw [generate_dataset_orders]
  refine genOrders_orders_forall _ _ _
    (fun o => (o.delivery_address.isSome ↔ o.order_type = "delivery")
      ∧ "delivery_address" ∈ orderJsonKeys o)
    ?_ oc 0 _ (by intro o ho; simp [OrderAcc.init] at ho)
  intro num stats r'
  refine ⟨orderStep_address_iff _ _ _ _ _ _, ?_⟩
  rw [orderJsonKeys]
  decide

set_option maxRecDepth 8000 in
unseal Rat.ofScientific Rat.mul Rat.inv Rat.add Rat.sub in
/-- C7 (counterexample to the claim as stated): in a concrete run, the first
order is a non-delivery order and its JSON document still carries the
`delivery_address` key — the key is not absent for non-delivery orders. -/
theorem c7_delivery_address_counterexample :
    ((generate_dataset 1 1 8 0 zeroStream).orders.getD 0 default) ∈
      (generate_dataset 1 1 8 0 zeroStream).orders
    ∧ ((generate_dataset 1 1 8 0 zeroStream).orders.getD 0 default).order_type
        ≠ "delivery"
    ∧ "delivery_address" ∈ orderJsonKeys
        ((generate_dataset 1 1 8 0 zeroStream).orders.getD 0 default) := by
  refine ⟨getD_zero_mem default ?_, by decide, by decide⟩
  have h := generate_dataset_orders_length 1 1 8 0 zeroStream
  intro hnil
  rw [hnil] at h
  simp at h

/-- C9: every generated order carries the legacy-compatibility duplicates:
`_id = order_id`, `order_status = status`, and in every line item
`price = unit_price`. -/
theorem c9_legacy_fields (cc oc mc : ℕ) (now : ℤ) (r : Rng) :
    ∀ o ∈ (generate_dataset cc oc mc now r).orders,
      o._id = o.order_id ∧ o.order_status = o.status ∧
      ∀ it ∈ o.items, it.price = it.unit_price := by
  rw [generate_dataset_orders]
  refine genOrders_orders_forall _ _ _
    (fun o => o._id = o.order_id ∧ o.order_status = o.status ∧
      ∀ it ∈ o.items, it.price = it.unit_price)
    ?_ oc 0 _ (by intro o ho; simp [OrderAcc.init] at ho)
  intro num stats r'
  refine ⟨orderStep_id_eq _ _ _ _ _ _, orderStep_order_status _ _ _ _ _ _, ?_⟩
  intro it hit
  exact (orderStep_items _ _ now num stats r' it hit).2.1

/-- C10: exactly one audit-log entry is emitted per order (the audit list's
`resource_id`s are positionally the orders' ids); every entry's `user_id`
is one of the twelve staff ids `staff_001` … `staff_012`; the users
collection consists of exactly those twelve ids for every configuration
(the staff count is the fixed constant `USER_COUNT`, not a parameter); and
hence every audit entry's `user_id` resolves to a generated user. -/
theorem c10_audit_staff_resolution (cc oc mc : ℕ) (now : ℤ) (r : Rng) :
    ((generate_dataset cc oc mc now r).audit_logs.map (fun a => a.resource_id) =
      (generate_dataset cc oc mc now r).orders.map (fun o => o.order_id))
    ∧ (∀ a ∈ (generate_dataset cc oc mc now r).audit_logs, a.user_id ∈ staffIds)
    ∧ ((generate_dataset cc oc mc now r).users.map (fun u => u.user_id) = staffIds)
    ∧ ((generate_dataset cc oc mc now r).users.length = USER_COUNT)
    ∧ (∀ a ∈ (generate_dataset cc oc mc now r).audit_logs,
        ∃ u ∈ (generate_dataset cc oc mc now r).users, u.user_id = a.user_id) := by
  have husers : (generate_dataset cc oc mc now r).users.map (fun u => u.user_id)
      = staffIds := by
    rw [generate_dataset_users, makeUsers_ids]
    decide
  have haudit : ∀ a ∈ (generate_dataset cc oc mc now r).audit_logs,
      a.user_id ∈ staffIds := by
    rw [generate_dataset_audits]
    refine genOrders_audits_forall _ _ _ (fun a => a.user_id ∈ staffIds)
      ?_ oc 0 _ (by intro a ha; simp [OrderAcc.init] at ha)
    intro num stats r'
    exact orderStep_audit_user _ _ _ _ _ _
  refine ⟨?_, haudit, husers, generate_dataset_users_length cc oc mc now r, ?_⟩
  · rw [generate_dataset_audits, generate_dataset_orders]
    exact genOrders_audit_map _ _ _ oc 0 _ rfl
  · intro a ha
    have h1 := haudit a ha
    rw [← husers, List.mem_map] at h1
    obtain ⟨u, hu, hequ⟩ := h1
    exact ⟨u, hu, hequ⟩

/-- C8 (amended): the menu_items collection has `max 18 mc` records — the
requested count exactly whenever it is at least the static catalog's 18
entries, and never fewer than requested (the catalog is never truncated for
smaller requests); the orders collection has exactly the requested count. -/
theorem c8_collection_sizes_amended (cc oc mc : ℕ) (now : ℤ) (r : Rng) :
    (generate_dataset cc oc mc now r).menu_items.length = max 18 mc
    ∧ mc ≤ (generate_dataset cc oc mc now r).menu_items.length
    ∧ (18 ≤ mc → (generate_dataset cc oc mc now r).menu_items.length = mc)
    ∧ (generate_dataset cc oc mc now r).orders.length = oc := by
  have hm := generate_dataset_menu_length cc oc mc now r
  refine ⟨hm, by rw [hm]; omega, by intro h; rw [hm]; omega,
    generate_dataset_orders_length cc oc mc now r⟩

/-- C8 (counterexample to the claim as stated): requesting 10 menu items (a
legal configuration, above `main`'s clamp of 8) yields a collection of 18
records, not 10 — the size is not exactly the requested count. -/
theorem c8_collection_sizes_counterexample :
    (generate_dataset 1 1 10 0 zeroStream).menu_items.length ≠ 10 := by
  have h := generate_dataset_menu_length 1 1 10 0 zeroStream
  rw [h]
  decide

/-- C6 (amended): degenerate CLI counts never abort the run: `main` clamps
them (`orders` and `customers` to at least 1, `menu_items` to at least 8),
always returns a dataset and never raises a configuration error; the
generated dataset has the clamped sizes. -/
theorem c6_degenerate_counts_amended (seed : ℕ) (orders customers menu_items now : ℤ) :
    ∃ d, main seed orders customers menu_items now = Except.ok d
      ∧ d.customers.length = (max 1 customers).toNat
      ∧ d.orders.length = (max 1 orders).toNat
      ∧ d.menu_items.length = max 18 (max 8 menu_items).toNat := by
  refine ⟨_, rfl, ?_, ?_, ?_⟩
  · exact generate_dataset_customers_length _ _ _ _ _
  · exact generate_dataset_orders_length _ _ _ _ _
  · exact generate_dataset_menu_length _ _ _ _ _

/-- C6 (counterexample to the claim as stated): with every count degenerate
(0 orders, 0 customers, 0 menu items) `main` does not fail: it returns a
dataset, and that dataset is non-trivial (one order was silently generated
from the clamped counts). -/
theorem c6_degenerate_counts_counterexample :
    (main 1 0 0 0 0).toOption.isSome = true
    ∧ ((main 1 0 0 0 0).toOption.getD default).orders.length = 1 := by
  constructor
  · rfl
  · show (generate_dataset (max 1 (0 : ℤ)).toNat (max 1 (0 : ℤ)).toNat
      (max 8 (0 : ℤ)).toNat 0 (seedRng 1)).orders.length = 1
    rw [generate_dataset_orders_length]
    decide

/-- C1 (amended): the generator is a deterministic pure function of the
seed, the counts and the wall-clock reading: two runs that agree on all of
them — in particular on the clock — produce identical output.  (Byte-identical
output across runs at different clock readings fails: see the
counterexample, timestamps are derived from `utcnow()`.) -/
theorem c1_determinism_amended (seed cc oc mc : ℕ) (now1 now2 : ℤ)
    (h : now1 = now2) :
    generate_dataset cc oc mc now1 (seedRng seed) =
      generate_dataset cc oc mc now2 (seedRng seed) := by
  rw [h]

/-- C1 (witness): the amended determinism theorem applied at a concrete
seed, concrete counts and equal clock readings. -/
theorem c1_determinism_witness :
    generate_dataset 1 1 8 0 (seedRng RANDOM_SEED) =
      generate_dataset 1 1 8 0 (seedRng RANDOM_SEED) :=
  c1_determinism_amended RANDOM_SEED 1 1 8 0 0 rfl

set_option maxRecDepth 8000 in
unseal Rat.ofScientific Rat.mul Rat.inv Rat.add Rat.sub in
/-- C1 (counterexample to the claim as stated): two runs with the same seed
and the same counts but clock readings one day apart produce different
datasets (their orders' creation timestamps differ), so the output is not
byte-identical across independent runs. -/
theorem c1_determinism_counterexample :
    generate_dataset 1 1 8 0 (seedRng RANDOM_SEED) ≠
      generate_dataset 1 1 8 1440 (seedRng RANDOM_SEED) := by
  intro h
  exact absurd (congrArg (fun d => d.orders.map (fun o => o.created_at)) h)
    (by decide)

-- ---------------------------------------------------------------------------
-- Witnesses: the universally quantified claim theorems instantiated at a
-- concrete run (one order, one customer, eight requested menu items)
-- ---------------------------------------------------------------------------

theorem generate_dataset_orders_ne_nil_w :
    (generate_dataset 1 1 8 0 zeroStream).orders ≠ [] := by
  have h := generate_dataset_orders_length 1 1 8 0 zeroStream
  intro hnil
  rw [hnil] at h
  simp at h

/-- C2 (witness): the arithmetic invariant holds on the first order of a
concrete run. -/
theorem c2_order_arithmetic_witness :
    ((generate_dataset 1 1 8 0 zeroStream).orders.getD 0 default).total_amount =
      round2 (((generate_dataset 1 1 8 0 zeroStream).orders.getD 0 default).subtotal
        - ((generate_dataset 1 1 8 0 zeroStream).orders.getD 0 default).discount
        + ((generate_dataset 1 1 8 0 zeroStream).orders.getD 0 default).tax) :=
  (c2_order_arithmetic 1 1 8 0 zeroStream _
    (getD_zero_mem default generate_dataset_orders_ne_nil_w)).1

/-- C3 (witness): the aggregate-consistency invariant holds for the first
customer of a concrete run. -/
theorem c3_customer_aggregates_witness :
    ((generate_dataset 1 1 8 0 zeroStream).customers.getD 0 default).orders_count =
      ((generate_dataset 1 1 8 0 zeroStream).orders.filter
        (fun o => o.customer_id ==
          ((generate_dataset 1 1 8 0 zeroStream).customers.getD 0 default).customer_id)).length := by
  have hne : (generate_dataset 1 1 8 0 zeroStream).customers ≠ [] := by
    have h := generate_dataset_customers_length 1 1 8 0 zeroStream
    intro hnil
    rw [hnil] at h
    simp at h
  exact (c3_customer_aggregates 1 1 8 0 zeroStream _ (getD_zero_mem default hne)).1

set_option maxRecDepth 8000 in
unseal Rat.ofScientific Rat.mul Rat.inv Rat.add Rat.sub in
/-- C4 (witness): in a concrete run whose first order is a pending delivery
order, a delivery record with that order's id exists. -/
theorem c4_delivery_subset_witness :
    ∃ dd ∈ (generate_dataset 1 1 8 0 oneStream).delivery_details,
      dd.order_id =
        ((generate_dataset 1 1 8 0 oneStream).orders.getD 0 default).order_id := by
  have hne : (generate_dataset 1 1 8 0 oneStream).orders ≠ [] := by
    have h := generate_dataset_orders_length 1 1 8 0 oneStream
    intro hnil
    rw [hnil] at h
    simp at h
  exact (c4_delivery_subset 1 1 8 0 oneStream).2 _ (getD_zero_mem default hne)
    ⟨by decide, Or.inr (by decide)⟩

/-- C5 (witness): the first line item of the first order of a concrete run
resolves in the generated menu. -/
theorem c5_referential_integrity_witness :
    resolves (generate_dataset 1 1 8 0 zeroStream).menu_items
      (((generate_dataset 1 1 8 0 zeroStream).orders.getD 0 default).items.getD 0
          default).menu_item_id = true := by
  have homem := getD_zero_mem default generate_dataset_orders_ne_nil_w
  have hitems := generate_dataset_items_ne_nil 1 1 8 0 zeroStream _ homem
  exact (c5_referential_integrity 1 1 8 0 zeroStream).1 _ homem _
    (getD_zero_mem default hitems)

/-- C7 (witness): the amended address invariant at the first order of a
concrete run. -/
theorem c7_delivery_address_witness :
    (((generate_dataset 1 1 8 0 zeroStream).orders.getD 0 default).delivery_address.isSome ↔
      ((generate_dataset 1 1 8 0 zeroStream).orders.getD 0 default).order_type = "delivery")
    ∧ "delivery_address" ∈ orderJsonKeys
        ((generate_dataset 1 1 8 0 zeroStream).orders.getD 0 default) :=
  c7_delivery_address_amended 1 1 8 0 zeroStream _
    (getD_zero_mem default generate_dataset_orders_ne_nil_w)

/-- C9 (witness): the legacy duplicates at the first order (and its first
line item) of a concrete run. -/
theorem c9_legacy_fields_witness :
    ((generate_dataset 1 1 8 0 zeroStream).orders.getD 0 default)._id =
      ((generate_dataset 1 1 8 0 zeroStream).orders.getD 0 default).order_id
    ∧ ((generate_dataset 1 1 8 0 zeroStream).orders.getD 0 default).order_status =
        ((generate_dataset 1 1 8 0 zeroStream).orders.getD 0 default).status
    ∧ (((generate_dataset 1 1 8 0 zeroStream).orders.getD 0 default).items.getD 0
          default).price =
        (((generate_dataset 1 1 8 0 zeroStream).orders.getD 0 default).items.getD 0
          default).unit_price := by
  have homem := getD_zero_mem default generate_dataset_orders_ne_nil_w
  have hitems := generate_dataset_items_ne_nil 1 1 8 0 zeroStream _ homem
  obtain ⟨h1, h2, h3⟩ := c9_legacy_fields 1 1 8 0 zeroStream _ homem
  exact ⟨h1, h2, h3 _ (getD_zero_mem default hitems)⟩

/-- C10 (witness): the first audit entry of a concrete run carries a staff
id. -/
theorem c10_audit_staff_resolution_witness :
    ((generate_dataset 1 1 8 0 zeroStream).audit_logs.getD 0 default).user_id ∈
      staffIds := by
  have hne : (generate_dataset 1 1 8 0 zeroStream).audit_logs ≠ [] := by
    have h := generate_dataset_audits_length 1 1 8 0 zeroStream
    intro hnil
    rw [hnil] at h
    simp at h
  exact (c10_audit_staff_resolution 1 1 8 0 zeroStream).2.1 _
    (getD_zero_mem default hne)

end CreateSampleDataset
